import Mathlib

/-!
Verification of the cart mutation reconciliation and optimistic-update pipeline
of the hydrogen storefront repository.

The development embeds, as pure Lean functions, the line diff engine
(`diffLines` and its `comparer`), the reconciliation and event emitter
(`instrumentEvent`, `linesAddResponse`), the two mutation-orchestrating route
actions (the dedicated `CartLinesAdd` action and the generic cart route
action), the event-deduplicating listener steps of `CartLinesAddForm` and
`useCartLinesAdd`, and the optimistic state tracker
(`useOptimisticCartLinesAdding`).  Remote network results, the session cart id,
the generated event uuid and the `isLocalPath` predicate (which lives in a
utility module outside these sources) are passed in as explicit inputs, and the
models record the session writes, the Set-Cookie side effect and the list of
remote calls that were issued, so that short-circuiting behaviour can be
stated.
-/

namespace Hydrogen

/-! ### The sequence diff (model of the `diff` function of the fast-array-diff
library, used by both `diffLines` and `useOptimisticCartLinesAdding`).

`diff(prev, next, comparer)` computes an LCS-style edit script between the two
sequences under the custom matching predicate (dynamic programming with the
usual recurrence: on a match, one plus the diagonal; otherwise the maximum of
dropping the head of either side) and returns the elements of `next` that are
not part of the matched common subsequence as `added`.  `lcsLen` is the length
of a longest common subsequence under the predicate; `diffAdded` is the
`added` component.  On ties between the two non-matching branches the model
keeps the head of `next` as added; the properties proved below do not depend
on that tie-break. -/

/-- Inner recursion of `lcsLen` for a fixed head `a` of the first sequence,
with `tail` the LCS-length function for the rest of the first sequence. -/
def lcsStep {α : Type} (cmp : α → α → Bool) (a : α) (tail : List α → Nat) :
    List α → Nat
  | [] => 0
  | b :: bs =>
    if cmp a b then tail bs + 1
    else max (tail (b :: bs)) (lcsStep cmp a tail bs)

/-- Length of a longest common subsequence of the two lists under the matching
predicate `cmp` (first argument drawn from the first list). -/
def lcsLen {α : Type} (cmp : α → α → Bool) : List α → List α → Nat
  | [], _ => 0
  | a :: as, bs => lcsStep cmp a (lcsLen cmp as) bs

/-- Inner recursion of `diffAdded` for a fixed head `a` (with remaining first
list `as`), with `tail` the `diffAdded` function for `as`. -/
def diffAddedStep {α : Type} (cmp : α → α → Bool) (a : α) (as : List α)
    (tail : List α → List α) : List α → List α
  | [] => []
  | b :: bs =>
    if cmp a b then tail bs
    else if lcsLen cmp as (b :: bs) ≤ lcsLen cmp (a :: as) bs then
      b :: diffAddedStep cmp a as tail bs
    else tail (b :: bs)

/-- The `added` component of the sequence diff: the elements of the second
list that are not matched into the longest common subsequence. -/
def diffAdded {α : Type} (cmp : α → α → Bool) : List α → List α → List α
  | [], bs => bs
  | a :: as, bs => diffAddedStep cmp a as (diffAdded cmp as) bs

theorem diffAddedStep_subset {α : Type} (cmp : α → α → Bool) (a : α)
    (as : List α) (tail : List α → List α)
    (htail : ∀ bs l, l ∈ tail bs → l ∈ bs) :
    ∀ bs l, l ∈ diffAddedStep cmp a as tail bs → l ∈ bs := by
  intro bs
  induction bs with
  | nil => intro l h; simp [diffAddedStep] at h
  | cons b bs ih =>
    intro l h
    simp only [diffAddedStep] at h
    split at h
    · exact List.mem_cons_of_mem _ (htail bs l h)
    · split at h
      · rcases List.mem_cons.mp h with h1 | h1
        · simp [h1]
        · exact List.mem_cons_of_mem _ (ih l h1)
      · exact htail (b :: bs) l h

/-- Every element reported as added occurs in the second list. -/
theorem diffAdded_subset {α : Type} (cmp : α → α → Bool) :
    ∀ as bs (l : α), l ∈ diffAdded cmp as bs → l ∈ bs := by
  intro as
  induction as with
  | nil => intro bs l h; simpa [diffAdded] using h
  | cons a as ih =>
    intro bs l h
    exact diffAddedStep_subset cmp a as (diffAdded cmp as)
      (fun bs l => ih bs l) bs l h

theorem diffAddedStep_complete {α : Type} (cmp : α → α → Bool) (a : α)
    (as : List α) (tail : List α → List α) (l : α) (ha : cmp a l = false)
    (htail : ∀ bs, l ∈ bs → l ∈ tail bs) :
    ∀ bs, l ∈ bs → l ∈ diffAddedStep cmp a as tail bs := by
  intro bs
  induction bs with
  | nil => intro h; simp at h
  | cons b bs ih =>
    intro h
    simp only [diffAddedStep]
    split
    · rename_i hcmp
      rcases List.mem_cons.mp h with rfl | h1
      · rw [ha] at hcmp; exact absurd hcmp (by simp)
      · exact htail bs h1
    · split
      · rcases List.mem_cons.mp h with rfl | h1
        · exact List.mem_cons_self _ _
        · exact List.mem_cons_of_mem _ (ih h1)
      · exact htail (b :: bs) h

/-- An element of the second list that no element of the first list matches is
always reported as added. -/
theorem diffAdded_complete {α : Type} (cmp : α → α → Bool) :
    ∀ as bs (l : α), (∀ p ∈ as, cmp p l = false) → l ∈ bs →
      l ∈ diffAdded cmp as bs := by
  intro as
  induction as with
  | nil => intro bs l _ h; simpa [diffAdded] using h
  | cons a as ih =>
    intro bs l hall h
    have ha : cmp a l = false := hall a (List.mem_cons_self a as)
    have htail : ∀ bs, l ∈ bs → l ∈ diffAdded cmp as bs :=
      fun bs hb => ih bs l (fun p hp => hall p (List.mem_cons_of_mem a hp)) hb
    exact diffAddedStep_complete cmp a as (diffAdded cmp as) l ha htail bs h

theorem lcsStep_eq_zero {α : Type} (cmp : α → α → Bool) (a : α)
    (tail : List α → Nat) :
    ∀ bs, (∀ b ∈ bs, cmp a b = false) →
      (∀ bs2, bs2.Sublist bs → tail bs2 = 0) → lcsStep cmp a tail bs = 0 := by
  intro bs
  induction bs with
  | nil => intro _ _; simp [lcsStep]
  | cons b bs ih =>
    intro hb htail
    have hab : cmp a b = false := hb b (List.mem_cons_self _ _)
    have h1 : tail (b :: bs) = 0 := htail (b :: bs) (List.Sublist.refl _)
    have h2 : lcsStep cmp a tail bs = 0 :=
      ih (fun c hc => hb c (List.mem_cons_of_mem _ hc))
        (fun bs2 hs => htail bs2 (hs.trans (List.sublist_cons_self b bs)))
    simp [lcsStep, hab, h1, h2]

/-- If no pair of elements matches, the longest common subsequence is empty. -/
theorem lcsLen_eq_zero {α : Type} (cmp : α → α → Bool) :
    ∀ as bs, (∀ p ∈ as, ∀ b ∈ bs, cmp p b = false) → lcsLen cmp as bs = 0 := by
  intro as
  induction as with
  | nil => intro bs _; simp [lcsLen]
  | cons a as ih =>
    intro bs h
    have h0 : lcsStep cmp a (lcsLen cmp as) bs = 0 :=
      lcsStep_eq_zero cmp a _ bs (fun b hb => h a (List.mem_cons_self _ _) b hb)
        (fun bs2 hs =>
          ih bs2 (fun p hp b hb => h p (List.mem_cons_of_mem _ hp) b (hs.subset hb)))
    simpa [lcsLen] using h0

theorem diffAddedStep_eq_self {α : Type} (cmp : α → α → Bool) (a : α)
    (as : List α) (tail : List α → List α) :
    ∀ bs, (∀ b ∈ bs, cmp a b = false) →
      (∀ p ∈ as, ∀ b ∈ bs, cmp p b = false) →
      diffAddedStep cmp a as tail bs = bs := by
  intro bs
  induction bs with
  | nil => intro _ _; simp [diffAddedStep]
  | cons b bs ih =>
    intro hb hall
    have hab : cmp a b = false := hb b (List.mem_cons_self _ _)
    have hcond : lcsLen cmp as (b :: bs) ≤ lcsLen cmp (a :: as) bs := by
      rw [lcsLen_eq_zero cmp as (b :: bs) hall]
      exact Nat.zero_le _
    have h2 : diffAddedStep cmp a as tail bs = bs :=
      ih (fun c hc => hb c (List.mem_cons_of_mem _ hc))
        (fun p hp c hc => hall p hp c (List.mem_cons_of_mem _ hc))
    simp [diffAddedStep, hab, hcond, h2]

/-- If no element of the first list matches any element of the second, the
diff reports the whole second list as added. -/
theorem diffAdded_eq_of_disjoint {α : Type} (cmp : α → α → Bool) :
    ∀ as bs, (∀ p ∈ as, ∀ b ∈ bs, cmp p b = false) → diffAdded cmp as bs = bs := by
  intro as
  induction as with
  | nil => intro bs _; simp [diffAdded]
  | cons a as _ =>
    intro bs h
    show diffAddedStep cmp a as (diffAdded cmp as) bs = bs
    exact diffAddedStep_eq_self cmp a as (diffAdded cmp as) bs
      (fun b hb => h a (List.mem_cons_self _ _) b hb)
      (fun p hp b hb => h p (List.mem_cons_of_mem _ hp) b hb)

/-- Diffing against an empty second list reports nothing as added. -/
theorem diffAdded_nil {α : Type} (cmp : α → α → Bool) (as : List α) :
    diffAdded cmp as [] = [] := by
  cases as <;> simp [diffAdded, diffAddedStep]

/-! ### Data model of the cart subsystem.

`CartLine` is a persisted line of the remote cart (`lines(first: 100)` edges
in the GraphQL fragment are flattened to their nodes); `CartLineInput` is a
requested line; `DiffingLine` is the projection used by the diff engine;
`CartM` is the cart shape of the `CartLinesFragment`; `CartUserErrorM` is the
`ErrorFragment` shape; `UserErrorM` is the locally synthesized user error. -/

/-- The `merchandise { ... on ProductVariant { id } }` selection of a line. -/
structure Merchandise where
  id : String
deriving Repr, DecidableEq

/-- A persisted cart line: `{id, quantity, merchandise {id}}`. -/
structure CartLine where
  id : String
  quantity : Nat
  merchandise : Merchandise
deriving Repr, DecidableEq

/-- A requested line to add: `{merchandiseId, quantity}`. -/
structure CartLineInput where
  merchandiseId : String
  quantity : Nat
deriving Repr, DecidableEq

/-- Projection of a cart line used purely for diffing. -/
structure DiffingLine where
  id : String
  quantity : Nat
  merchandiseId : String
deriving Repr, DecidableEq

/-- The cart shape returned by the storefront queries and mutations. -/
structure CartM where
  id : String
  totalQuantity : Nat
  lines : List CartLine
deriving Repr, DecidableEq

/-- A GraphQL user error per the `ErrorFragment`: `{message, field, code}`. -/
structure CartUserErrorM where
  message : String
  field : Option (List String)
  code : Option String
deriving Repr, DecidableEq

/-- A locally synthesized user error: `{code, message}`. -/
structure UserErrorM where
  code : String
  message : String
deriving Repr, DecidableEq

/-! ### The line diff engine (`diffLines` of the CartLinesAdd route). -/

/-- Projection `({node: {id, quantity, merchandise}}) => ({id, quantity,
merchandiseId: merchandise.id})` applied to each edge of a line connection. -/
def toDiffingLine (l : CartLine) : DiffingLine :=
  ⟨l.id, l.quantity, l.merchandise.id⟩

/-- The line comparison function of `diffLines`: the candidate `line` of the
current cart matches the reference `prevLine` of the previous cart when the
line ids agree, the merchandise ids agree and the candidate quantity is at
most the reference quantity. -/
def comparer (prevLine line : DiffingLine) : Bool :=
  prevLine.id == line.id && prevLine.merchandiseId == line.merchandiseId &&
    decide (line.quantity ≤ prevLine.quantity)

/-- `diffLines({addingLines, prevLines, currentLines})`: projects the previous
and current lines to `DiffingLine`s, runs the sequence diff under `comparer`
to obtain `linesAdded`, and filters `addingLines` down to those whose
merchandise id is not among the merchandise ids of `linesAdded` to obtain
`linesNotAdded`.  Returns `(linesAdded, linesNotAdded)`. -/
def diffLines (addingLines : List CartLineInput)
    (prevLines currentLines : List CartLine) :
    List DiffingLine × List CartLineInput :=
  let prev := prevLines.map toDiffingLine
  let next := currentLines.map toDiffingLine
  let linesAdded := diffAdded comparer prev next
  let linesAddedIds := linesAdded.map (fun l => l.merchandiseId)
  let linesNotAdded :=
    addingLines.filter (fun l => !(linesAddedIds.contains l.merchandiseId))
  (linesAdded, linesNotAdded)

/-! ### Reconciliation and event emitter of the CartLinesAdd route. -/

/-- The `lines_add` analytics event: `{type, id, payload: {linesAdded}}`.  The
event id is a fresh uuid generated per successful invocation; the model takes
it as an input. -/
structure LinesAddEventM where
  type : String
  id : String
  linesAdded : List DiffingLine
deriving Repr, DecidableEq

/-- `instrumentEvent({addingLines, prevLines, currentLines})`: runs
`diffLines`, builds the `lines_add` event carrying `linesAdded`, and one
`LINE_NOT_ADDED` user error per line of `linesNotAdded`, whose message is the
trailing `/`-separated segment of the merchandise id. -/
def instrumentEvent (uuid : String) (addingLines : List CartLineInput)
    (prevLines currentLines : List CartLine) :
    LinesAddEventM × List UserErrorM :=
  let d := diffLines addingLines prevLines currentLines
  (⟨"lines_add", uuid, d.1⟩,
    d.2.map fun l =>
      ⟨"LINE_NOT_ADDED", (l.merchandiseId.splitOn "/").getLastD ""⟩)

/-- The possible responses of the CartLinesAdd action:
a hard invariant failure, a bare `{errors}` body on remote application
errors, a redirect to a local path, or a `{event, errors}` body. -/
inductive LinesAddActionResponse where
  | abort (msg : String)
  | errorsOnly (errors : List CartUserErrorM)
  | redirectTo (path : String)
  | event (event : LinesAddEventM) (errors : List UserErrorM)
deriving Repr, DecidableEq

/-- The remote operations the two actions can issue, in issue order. -/
inductive RemoteCall where
  | cartCreate
  | getCartLines
  | cartLinesAdd
  | cartRemove
  | cartUpdate
  | cartDiscountCodesUpdate
  | cartUpdateBuyerIdentity
deriving Repr, DecidableEq

/-- `linesAddResponse({prevCart, cart, lines, formData, headers})`: when the
form carries a `redirectTo` field holding a local path, respond with a
redirect (keeping the accumulated headers); otherwise instrument the event
against the previous cart lines (empty when there was no previous cart) and
respond with `{event, errors}`.  `isLocalPath` lives in the utility module and
is passed in as a predicate. -/
def linesAddResponse (isLocalPath : String → Bool) (uuid : String)
    (prevCart : Option CartM) (cart : CartM) (lines : List CartLineInput)
    (redirectTo : Option String) : LinesAddActionResponse :=
  let instrumented :=
    let p := instrumentEvent uuid lines ((prevCart.map CartM.lines).getD [])
      cart.lines
    LinesAddActionResponse.event p.1 p.2
  match redirectTo with
  | some r => if isLocalPath r then .redirectTo r else instrumented
  | none => instrumented

/-- The remote results observed by the CartLinesAdd action: what `cartCreate`
returns (cart and application errors), what the uncached `getCartLines` query
returns, and what `cartLinesAdd` returns. -/
structure StorefrontEnv where
  createCart : CartM
  createErrors : List CartUserErrorM
  queriedCart : CartM
  addCart : CartM
  addErrors : List CartUserErrorM
deriving Repr, DecidableEq

/-- Everything the CartLinesAdd action produces: the response, the cart id
written into the session (if any), whether a Set-Cookie header was set from
`session.commit()`, and the remote calls issued, in order. -/
structure ActionOutcome where
  response : LinesAddActionResponse
  sessionCartId : Option String
  setCookie : Bool
  calls : List RemoteCall
deriving Repr, DecidableEq

namespace CartLinesAdd

/-- The CartLinesAdd route action.  Parses the `lines` form field (absent
field yields the empty list) and fails hard when empty.  With no session cart
id (flow A) it runs `cartCreate`: application errors short-circuit to a bare
`{errors}` response; otherwise the new cart id is written to the session, a
Set-Cookie header is committed, and `linesAddResponse` finishes.  With a cart
id (flow B) it first queries the current lines uncached, then runs
`cartLinesAdd`: application errors short-circuit likewise; otherwise
`linesAddResponse` finishes with the queried cart as the previous snapshot. -/
def action (isLocalPath : String → Bool) (uuid : String) (env : StorefrontEnv)
    (cartId : Option String) (linesField : Option (List CartLineInput))
    (redirectTo : Option String) : ActionOutcome :=
  let lines := linesField.getD []
  if lines.isEmpty then
    ⟨.abort "No lines to add", none, false, []⟩
  else
    match cartId with
    | none =>
      if env.createErrors.isEmpty then
        ⟨linesAddResponse isLocalPath uuid none env.createCart lines redirectTo,
          some env.createCart.id, true, [.cartCreate]⟩
      else
        ⟨.errorsOnly env.createErrors, none, false, [.cartCreate]⟩
    | some _ =>
      if env.addErrors.isEmpty then
        ⟨linesAddResponse isLocalPath uuid (some env.queriedCart) env.addCart
            lines redirectTo,
          none, false, [.getCartLines, .cartLinesAdd]⟩
      else
        ⟨.errorsOnly env.addErrors, none, false, [.getCartLines, .cartLinesAdd]⟩

end CartLinesAdd

/-! ### Event-deduplicating listener steps. -/

/-- One pass of the `useEffect` of `CartLinesAddForm` over the observed
`fetcher.data.event.id`: no delivery when the id is absent or equals the last
delivered id; otherwise the callback fires and the last delivered id is
updated.  Returns `(delivered, new last delivered id)`. -/
def cartLinesAddFormEffect (lastEventId : Option String)
    (eventId : Option String) : Bool × Option String :=
  match eventId with
  | none => (false, lastEventId)
  | some e => if some e == lastEventId then (false, lastEventId) else (true, some e)

/-- One pass of the `useEffect` of `useCartLinesAdd` over the observed
`fetcher.data.event`: no delivery when the event is absent or its id equals
the last delivered id; otherwise the callback fires and the last delivered id
is updated. -/
def useCartLinesAddEffect (lastEventId : Option String)
    (event : Option LinesAddEventM) : Bool × Option String :=
  match event with
  | none => (false, lastEventId)
  | some ev =>
    if lastEventId == some ev.id then (false, lastEventId) else (true, some ev.id)

/-! ### Optimistic state tracker (`useOptimisticCartLinesAdding`). -/

/-- An optimistic line: a partial cart line whose `merchandise.id` may be
absent. -/
structure OptLine where
  merchandiseId : Option String
deriving Repr, DecidableEq

/-- The line comparison function of `useOptimisticCartLinesAdding`: two lines
match exactly when both carry a merchandise id and the ids agree; a line
lacking a merchandise id matches nothing. -/
def optComparer (prevLine line : OptLine) : Bool :=
  match prevLine.merchandiseId, line.merchandiseId with
  | some a, some b => a == b
  | _, _ => false

/-- `useOptimisticCartLinesAdding(lines)`: `optimisticLinesField` is the
parsed `optimisticLines` form field of the in-flight submission (`none` when
no in-flight submission exists); `lines` is the last confirmed lines argument
(`none` when it is not an array).  Returns
`(optimisticLines, optimisticLinesNew)`: both empty with no in-flight
submission; new lines empty when nothing is being added; all optimistic lines
new when `lines` is not an array or empty; otherwise the added partition of
the diff of `lines` against the optimistic lines under `optComparer`. -/
def useOptimisticCartLinesAdding (lines : Option (List OptLine))
    (optimisticLinesField : Option (List OptLine)) :
    List OptLine × List OptLine :=
  match optimisticLinesField with
  | none => ([], [])
  | some optimisticLines =>
    if optimisticLines.isEmpty then (optimisticLines, [])
    else
      match lines with
      | none => (optimisticLines, optimisticLines)
      | some ls =>
        if ls.isEmpty then (optimisticLines, optimisticLines)
        else (optimisticLines, diffAdded optComparer ls optimisticLines)

/-! ### The generic cart route action (switching on the `cartAction` tag).

The helpers `cartAdd`, `cartRemove`, `cartUpdate`, `cartDiscountCodesUpdate`
and `cartUpdateBuyerIdentity` that this action calls are imported from a data
module that is not among these sources, so their bodies are modelled from the
spec where the spec constrains them (the missing-cart-id guards of remove and
update); all of them return a `{cart, errors}` result taken from the
environment. -/

/-- An element of the JSON-decoded `lines` form field.  At runtime the same
decoded array is read both as add inputs and as update inputs, so the model
carries the union of the fields either view may use. -/
structure LineField where
  id : Option String
  merchandiseId : Option String
  quantity : Option Nat
deriving Repr, DecidableEq

/-- The JSON-decoded `buyerIdentity` form field. -/
structure BuyerIdentityM where
  countryCode : Option String
deriving Repr, DecidableEq

/-- The form payload of the cart route action.  `none` for a field means the
field is absent from the submitted form data; `discountCodes` uses `getAll`,
which always yields a (possibly empty) list. -/
structure CartFormData where
  cartAction : Option String
  lines : Option (List LineField)
  linesIds : Option (List String)
  discountCodes : List String
  buyerIdentity : Option BuyerIdentityM
  countryCode : Option String
  redirectTo : Option String
deriving Repr, DecidableEq

/-- A `{cart, errors}` result of one remote cart mutation. -/
structure CartMutationResult where
  cart : CartM
  errors : List CartUserErrorM
deriving Repr, DecidableEq

/-- The remote results observed by the cart route action, one per possible
mutation. -/
structure CartActionEnv where
  createResult : CartMutationResult
  addResult : CartMutationResult
  removeResult : CartMutationResult
  updateResult : CartMutationResult
  discountResult : CartMutationResult
  buyerIdentityResult : CartMutationResult
deriving Repr, DecidableEq

/-- Responses of the cart route action: a hard invariant failure, or a
`{cart, errors}` JSON body with an HTTP status and an optional Location
header (303 redirect for a local `redirectTo`). -/
inductive CartActionResponse where
  | abort (msg : String)
  | ok (cart : CartM) (errors : List CartUserErrorM) (status : Nat)
      (location : Option String)
deriving Repr, DecidableEq

/-- Everything the cart route action produces: response, session write,
Set-Cookie side effect, and the remote calls issued in order. -/
structure CartActionOutcome where
  response : CartActionResponse
  sessionCartId : Option String
  setCookie : Bool
  calls : List RemoteCall
deriving Repr, DecidableEq

/-- Modelled from the spec: `cartRemove` is imported from the data module,
which is not among these sources.  The spec requires a missing cart id for a
remove action to be a hard precondition failure aborting before any network
call; with a cart id present the remote remove mutation runs and returns
`{cart, errors}`. -/
def cartRemove (cartId : Option String) (lineIds : List String)
    (env : CartActionEnv) :
    Except String (CartMutationResult × List RemoteCall) :=
  match cartId, lineIds with
  | none, _ => .error "Missing cartId"
  | some _, _ => .ok (env.removeResult, [RemoteCall.cartRemove])

/-- Modelled from the spec: `cartUpdate` is imported from the data module,
which is not among these sources.  The spec requires a missing cart id for an
update action to be a hard precondition failure aborting before any network
call; with a cart id present the remote update mutation runs and returns
`{cart, errors}`. -/
def cartUpdate (cartId : Option String) (lines : List LineField)
    (env : CartActionEnv) :
    Except String (CartMutationResult × List RemoteCall) :=
  match cartId, lines with
  | none, _ => .error "Missing cartId"
  | some _, _ => .ok (env.updateResult, [RemoteCall.cartUpdate])

/-- The cart route action.  It fails hard on a missing `cartAction` tag, then
dispatches on the tag: add (create when no cart id is in the session, with the
new cart id written to the session and a Set-Cookie header committed,
otherwise add to the existing cart), remove, update, discount-codes update
(hard failure on a missing cart id), buyer-identity update (create when no
cart id exists; the resulting cart id is written to the session either way),
and a hard failure on any unrecognized tag.  After the dispatch, a local
`redirectTo` form field turns the response into a 303 with a Location
header. -/
def cartRouteAction (isLocalPath : String → Bool) (env : CartActionEnv)
    (cartId : Option String) (fd : CartFormData) : CartActionOutcome :=
  match fd.cartAction with
  | none => ⟨.abort "No cartAction defined", none, false, []⟩
  | some tag =>
    let finish : CartMutationResult → Option String → Bool → List RemoteCall →
        CartActionOutcome := fun result sess cookie calls =>
      match fd.redirectTo with
      | some r =>
        if isLocalPath r then
          ⟨.ok result.cart result.errors 303 (some r), sess, cookie, calls⟩
        else ⟨.ok result.cart result.errors 200 none, sess, cookie, calls⟩
      | none => ⟨.ok result.cart result.errors 200 none, sess, cookie, calls⟩
    if tag = "ADD_TO_CART" then
      let lines := fd.lines.getD []
      if lines.isEmpty then ⟨.abort "No lines to add", none, false, []⟩
      else
        match cartId with
        | none =>
          finish env.createResult (some env.createResult.cart.id) true
            [.cartCreate]
        | some _ => finish env.addResult none false [.cartLinesAdd]
    else if tag = "REMOVE_FROM_CART" then
      let lineIds := fd.linesIds.getD []
      if lineIds.isEmpty then ⟨.abort "No lines to remove", none, false, []⟩
      else
        match cartRemove cartId lineIds env with
        | .error m => ⟨.abort m, none, false, []⟩
        | .ok (result, calls) => finish result none false calls
    else if tag = "UPDATE_CART" then
      let updateLines := fd.lines.getD []
      if updateLines.isEmpty then ⟨.abort "No lines to update", none, false, []⟩
      else
        match cartUpdate cartId updateLines env with
        | .error m => ⟨.abort m, none, false, []⟩
        | .ok (result, calls) => finish result none false calls
    else if tag = "UPDATE_DISCOUNT" then
      match cartId with
      | none => ⟨.abort "Missing cartId", none, false, []⟩
      | some _ => finish env.discountResult none false [.cartDiscountCodesUpdate]
    else if tag = "UPDATE_BUYER_IDENTITY" then
      match cartId with
      | some _ =>
        finish env.buyerIdentityResult (some env.buyerIdentityResult.cart.id)
          true [.cartUpdateBuyerIdentity]
      | none =>
        finish env.createResult (some env.createResult.cart.id) true
          [.cartCreate]
    else ⟨.abort (tag ++ " cart action is not defined"), none, false, []⟩

/-! ### Claims about the line diff engine. -/

/-- Claim C1: in `diffLines`, a line of the current (next) sequence is matched
against a line of the previous sequence exactly when they have the same line
id, the same merchandise id, and the next line's quantity is at most the prev
line's quantity; consequently, whenever the current snapshot contains a line
that also occurred in the previous snapshot with the same line id and
merchandise id and whose quantity strictly increased (every previous line
carrying that line id has strictly smaller quantity), that line is classified
as added. -/
theorem c1_comparer_and_quantity_increase :
    (∀ p l : DiffingLine, comparer p l = true ↔
      (p.id = l.id ∧ p.merchandiseId = l.merchandiseId ∧
        l.quantity ≤ p.quantity)) ∧
    (∀ (addingLines : List CartLineInput)
      (prevLines currentLines : List CartLine) (c : CartLine),
      c ∈ currentLines →
      (∃ p ∈ prevLines, p.id = c.id ∧ p.merchandise.id = c.merchandise.id) →
      (∀ p ∈ prevLines, p.id = c.id → p.quantity < c.quantity) →
      toDiffingLine c ∈ (diffLines addingLines prevLines currentLines).1) := by
  constructor
  · intro p l
    simp [comparer, and_assoc]
  · intro adding prev next c hc _hex hq
    have hfalse : ∀ p2 ∈ prev.map toDiffingLine,
        comparer p2 (toDiffingLine c) = false := by
      intro p2 hp2
      obtain ⟨p, hp, rfl⟩ := List.mem_map.mp hp2
      by_cases hid : p.id = c.id
      · have hlt := hq p hp hid
        simp only [comparer, toDiffingLine]
        have : ¬ c.quantity ≤ p.quantity := by omega
        simp [this]
      · simp [comparer, toDiffingLine, hid]
    have hmem : toDiffingLine c ∈ next.map toDiffingLine :=
      List.mem_map_of_mem _ hc
    simpa [diffLines] using diffAdded_complete comparer _ _ _ hfalse hmem

/-- Claim C1 witness: a concrete quantity increase (1 to 3 on the same line
and merchandise id) is classified as added. -/
theorem c1_witness :
    toDiffingLine ⟨"L", 3, ⟨"gid://shop/ProductVariant/1"⟩⟩ ∈
      (diffLines [⟨"gid://shop/ProductVariant/1", 2⟩]
        [⟨"L", 1, ⟨"gid://shop/ProductVariant/1"⟩⟩]
        [⟨"L", 3, ⟨"gid://shop/ProductVariant/1"⟩⟩]).1 :=
  c1_comparer_and_quantity_increase.2
    [⟨"gid://shop/ProductVariant/1", 2⟩]
    [⟨"L", 1, ⟨"gid://shop/ProductVariant/1"⟩⟩]
    [⟨"L", 3, ⟨"gid://shop/ProductVariant/1"⟩⟩]
    ⟨"L", 3, ⟨"gid://shop/ProductVariant/1"⟩⟩
    (by decide)
    ⟨⟨"L", 1, ⟨"gid://shop/ProductVariant/1"⟩⟩, by decide, by decide, by decide⟩
    (by decide)

/-- Claim C2: `linesNotAdded` is exactly the sublist of `addingLines` whose
merchandise id does not occur among the merchandise ids of `linesAdded`, so a
requested line is in `linesNotAdded` precisely when its merchandise id is
absent from `linesAdded`. -/
theorem c2_linesNotAdded_complement :
    ∀ (addingLines : List CartLineInput)
      (prevLines currentLines : List CartLine),
      (diffLines addingLines prevLines currentLines).2 =
        addingLines.filter (fun l =>
          !(((diffLines addingLines prevLines currentLines).1.map
              (fun a => a.merchandiseId)).contains l.merchandiseId)) ∧
      ∀ l : CartLineInput,
        (l ∈ (diffLines addingLines prevLines currentLines).2 ↔
          (l ∈ addingLines ∧
            l.merchandiseId ∉
              (diffLines addingLines prevLines currentLines).1.map
                (fun a => a.merchandiseId))) := by
  intro adding prev next
  refine ⟨rfl, fun l => ?_⟩
  simp [diffLines, List.mem_filter]

/-- Claim C3 (counterexample): the claim fails in two ways.  First, with an
empty previous cart and two current lines that share a merchandise id (the
remote tie quirk), both lines land in `linesAdded`, so the added lines do not
carry pairwise distinct merchandise ids.  Second, the sequence diff is
order-sensitive: when two lines swap positions between the previous and
current snapshots, one of them is classified as added even though it was
present in the previous snapshot with the same line id, same merchandise id
and equal quantity. -/
theorem c3_counterexample :
    (¬ ∀ (addingLines : List CartLineInput)
        (prevLines currentLines : List CartLine),
        ∀ l ∈ (diffLines addingLines prevLines currentLines).1,
          (∀ l2 ∈ (diffLines addingLines prevLines currentLines).1,
            l2 = l ∨ l2.merchandiseId ≠ l.merchandiseId) ∧
          l ∈ currentLines.map toDiffingLine ∧
          (∀ p ∈ prevLines,
            ¬ (p.id = l.id ∧ p.merchandise.id = l.merchandiseId ∧
              l.quantity ≤ p.quantity))) ∧
    (¬ ∀ (addingLines : List CartLineInput)
        (prevLines currentLines : List CartLine),
        ∀ l ∈ (diffLines addingLines prevLines currentLines).1,
          ∀ p ∈ prevLines,
            ¬ (p.id = l.id ∧ p.merchandise.id = l.merchandiseId ∧
              l.quantity ≤ p.quantity)) := by
  constructor
  · intro h
    have h1 := h [] [] [⟨"a", 1, ⟨"M"⟩⟩, ⟨"b", 1, ⟨"M"⟩⟩]
      ⟨"a", 1, "M"⟩ (by decide)
    have h2 := h1.1 ⟨"b", 1, "M"⟩ (by decide)
    rcases h2 with h2 | h2
    · exact absurd h2 (by decide)
    · exact h2 rfl
  · intro h
    have h1 := h [] [⟨"p1", 1, ⟨"M1"⟩⟩, ⟨"p2", 1, ⟨"M2"⟩⟩]
      [⟨"p2", 1, ⟨"M2"⟩⟩, ⟨"p1", 1, ⟨"M1"⟩⟩]
      ⟨"p2", 1, "M2"⟩ (by decide) ⟨"p2", 1, ⟨"M2"⟩⟩ (by decide)
    exact h1 (by decide)

/-- Claim C3 (amended): every line of `linesAdded` appears in the current cart
snapshot; however, lines of `linesAdded` need not carry pairwise distinct
merchandise ids (merchandise-id ties are kept independently), and a line may
be classified as added even though it was present in the previous snapshot
with equal-or-greater quantity, because the sequence diff is
order-sensitive. -/
theorem c3_amended :
    ∀ (addingLines : List CartLineInput)
      (prevLines currentLines : List CartLine),
      ∀ l ∈ (diffLines addingLines prevLines currentLines).1,
        l ∈ currentLines.map toDiffingLine := by
  intro adding prev next l hl
  exact diffAdded_subset comparer _ _ l (by simpa [diffLines] using hl)

/-- Claim C3 witness: a concretely added line appears in the current
snapshot. -/
theorem c3_amended_witness :
    (⟨"a", 1, "M"⟩ : DiffingLine) ∈
      ([⟨"a", 1, ⟨"M"⟩⟩] : List CartLine).map toDiffingLine :=
  c3_amended [] [] [⟨"a", 1, ⟨"M"⟩⟩] ⟨"a", 1, "M"⟩ (by decide)

/-- Claim C9: when the previous and current sequences share no merchandise id
(in particular when the previous sequence is empty), every current line is
classified as added; and with an empty current sequence nothing is added. -/
theorem c9_disjoint_and_empty :
    (∀ (addingLines : List CartLineInput)
      (prevLines currentLines : List CartLine),
      (∀ p ∈ prevLines, ∀ c ∈ currentLines,
        p.merchandise.id ≠ c.merchandise.id) →
      (diffLines addingLines prevLines currentLines).1 =
        currentLines.map toDiffingLine) ∧
    (∀ (addingLines : List CartLineInput) (prevLines : List CartLine),
      (diffLines addingLines prevLines []).1 = []) := by
  constructor
  · intro adding prev next h
    have hfalse : ∀ p2 ∈ prev.map toDiffingLine, ∀ c2 ∈ next.map toDiffingLine,
        comparer p2 c2 = false := by
      intro p2 hp2 c2 hc2
      obtain ⟨p, hp, rfl⟩ := List.mem_map.mp hp2
      obtain ⟨c, hc, rfl⟩ := List.mem_map.mp hc2
      have hne := h p hp c hc
      simp [comparer, toDiffingLine, hne]
    simpa [diffLines] using diffAdded_eq_of_disjoint comparer _ _ hfalse
  · intro adding prev
    simp [diffLines, diffAdded_nil]

/-- Claim C9 witness: with an empty previous cart, the one current line is
classified as added. -/
theorem c9_witness :
    (diffLines [] [] [⟨"L", 1, ⟨"M"⟩⟩]).1 =
      ([⟨"L", 1, ⟨"M"⟩⟩] : List CartLine).map toDiffingLine :=
  c9_disjoint_and_empty.1 [] [] [⟨"L", 1, ⟨"M"⟩⟩] (by decide)

/-! ### Claims about the event listeners and the optimistic tracker. -/

/-- Claim C7: in both event consumers (`CartLinesAddForm` and
`useCartLinesAdd`) the callback fires exactly when an event id is observed
that differs from the last delivered event id, and an immediate redelivery of
the same event id (the same response re-observed on re-render) is never
delivered again. -/
theorem c7_event_dedup :
    (∀ (last eventId : Option String),
      ((cartLinesAddFormEffect last eventId).1 = true ↔
        ∃ e, eventId = some e ∧ last ≠ some e)) ∧
    (∀ (last : Option String) (event : Option LinesAddEventM),
      ((useCartLinesAddEffect last event).1 = true ↔
        ∃ ev, event = some ev ∧ last ≠ some ev.id)) ∧
    (∀ (last : Option String) (e : String),
      (cartLinesAddFormEffect
        (cartLinesAddFormEffect last (some e)).2 (some e)).1 = false) ∧
    (∀ (last : Option String) (ev : LinesAddEventM),
      (useCartLinesAddEffect
        (useCartLinesAddEffect last (some ev)).2 (some ev)).1 = false) := by
  refine ⟨?_, ?_, ?_, ?_⟩
  · intro last eid
    cases eid with
    | none => simp [cartLinesAddFormEffect]
    | some e =>
      by_cases h : (some e : Option String) = last
      · subst h; simp [cartLinesAddFormEffect]
      · simp only [cartLinesAddFormEffect, beq_iff_eq, if_neg h]
        constructor
        · intro _; exact ⟨e, rfl, fun hh => h hh.symm⟩
        · intro _; trivial
  · intro last ev
    cases ev with
    | none => simp [useCartLinesAddEffect]
    | some e =>
      by_cases h : last = some e.id
      · subst h; simp [useCartLinesAddEffect]
      · simp only [useCartLinesAddEffect, beq_iff_eq, if_neg h]
        constructor
        · intro _; exact ⟨e, rfl, h⟩
        · intro _; trivial
  · intro last e
    by_cases h : (some e : Option String) = last <;>
      simp [cartLinesAddFormEffect, h]
  · intro last ev
    by_cases h : last = some ev.id <;> simp [useCartLinesAddEffect, h]

/-- Claim C8: the optimistic tracker returns two empty lists when no in-flight
submission exists; when the confirmed `lines` argument is not an array or is
empty, every optimistic line is new; otherwise the new lines are exactly the
added partition of the diff of the confirmed lines against the optimistic
lines under the merchandise-id-only matcher, where a line lacking a
merchandise id matches nothing.  (The model is a pure function, so it cannot
mutate its inputs.) -/
theorem c8_optimistic_tracker :
    (∀ lines : Option (List OptLine),
      useOptimisticCartLinesAdding lines none = ([], [])) ∧
    (∀ opt : List OptLine,
      useOptimisticCartLinesAdding none (some opt) = (opt, opt)) ∧
    (∀ opt : List OptLine,
      useOptimisticCartLinesAdding (some []) (some opt) = (opt, opt)) ∧
    (∀ (ls opt : List OptLine), ls ≠ [] →
      useOptimisticCartLinesAdding (some ls) (some opt) =
        (opt, diffAdded optComparer ls opt)) ∧
    (∀ p l : OptLine, p.merchandiseId = none ∨ l.merchandiseId = none →
      optComparer p l = false) := by
  refine ⟨?_, ?_, ?_, ?_, ?_⟩
  · intro lines; rfl
  · intro opt
    cases opt <;> simp [useOptimisticCartLinesAdding]
  · intro opt
    cases opt <;> simp [useOptimisticCartLinesAdding]
  · intro ls opt hls
    cases opt with
    | nil => simp [useOptimisticCartLinesAdding, diffAdded_nil]
    | cons o os =>
      cases ls with
      | nil => exact absurd rfl hls
      | cons l ll => simp [useOptimisticCartLinesAdding]
  · intro p l h
    rcases h with h | h <;> simp [optComparer, h]

/-- Claim C8 witness: with one confirmed line `A` and in-flight optimistic
lines `A, B`, the new optimistic lines are the added partition of the diff
(concretely, just `B`). -/
theorem c8_witness :
    useOptimisticCartLinesAdding (some [⟨some "A"⟩])
        (some [⟨some "A"⟩, ⟨some "B"⟩]) =
      ([⟨some "A"⟩, ⟨some "B"⟩],
        diffAdded optComparer [⟨some "A"⟩] [⟨some "A"⟩, ⟨some "B"⟩]) :=
  c8_optimistic_tracker.2.2.2.1 [⟨some "A"⟩] [⟨some "A"⟩, ⟨some "B"⟩]
    (by decide)

/-! ### Claims about the mutation-orchestrating actions. -/

/-- Claim C4: in the CartLinesAdd action, a non-empty application-error array
from the remote mutation short-circuits both flows: the action responds with
exactly those errors, produces no `lines_add` event (the response is a bare
errors body, so no diff is run), and in the create flow writes no cart id to
the session and commits no cookie. -/
theorem c4_error_short_circuit :
    ∀ (isLocalPath : String → Bool) (uuid : String) (env : StorefrontEnv)
      (cartId : Option String) (linesField : Option (List CartLineInput))
      (redirectTo : Option String),
      linesField.getD [] ≠ [] →
      (cartId = none → env.createErrors ≠ [] →
        CartLinesAdd.action isLocalPath uuid env cartId linesField redirectTo =
          ⟨.errorsOnly env.createErrors, none, false, [.cartCreate]⟩) ∧
      (∀ cid : String, cartId = some cid → env.addErrors ≠ [] →
        CartLinesAdd.action isLocalPath uuid env cartId linesField redirectTo =
          ⟨.errorsOnly env.addErrors, none, false,
            [.getCartLines, .cartLinesAdd]⟩) := by
  intro ilp uuid env cartId lf rt hl
  constructor
  · intro hc he
    subst hc
    simp [CartLinesAdd.action, List.isEmpty_iff, hl, he]
  · intro cid hc he
    subst hc
    simp [CartLinesAdd.action, List.isEmpty_iff, hl, he]

/-- Claim C4 witness: a concrete failing create-flow invocation returns the
remote errors and nothing else. -/
theorem c4_witness :
    CartLinesAdd.action (fun _ => true) "u"
      ⟨⟨"c1", 0, []⟩, [⟨"bad", none, none⟩], ⟨"c1", 0, []⟩, ⟨"c1", 0, []⟩, []⟩
      none (some [⟨"m", 1⟩]) none =
      ⟨.errorsOnly [⟨"bad", none, none⟩], none, false, [.cartCreate]⟩ :=
  (c4_error_short_circuit (fun _ => true) "u"
    ⟨⟨"c1", 0, []⟩, [⟨"bad", none, none⟩], ⟨"c1", 0, []⟩, ⟨"c1", 0, []⟩, []⟩
    none (some [⟨"m", 1⟩]) none (by decide)).1 rfl (by decide)

/-- Claim C6 (counterexample): the claim holds for the CartLinesAdd action but
not for the generic cart route action, whose no-cart add flow writes the
returned cart id to the session and commits a Set-Cookie header without
checking the application-error array: concretely, with a create result
carrying both a cart and a non-empty error list, the session is still
mutated. -/
theorem c6_counterexample :
    (cartRouteAction (fun _ => false)
        ⟨⟨⟨"c1", 0, []⟩, [⟨"bad", none, none⟩]⟩, ⟨⟨"", 0, []⟩, []⟩,
          ⟨⟨"", 0, []⟩, []⟩, ⟨⟨"", 0, []⟩, []⟩, ⟨⟨"", 0, []⟩, []⟩,
          ⟨⟨"", 0, []⟩, []⟩⟩
        none
        ⟨some "ADD_TO_CART", some [⟨none, some "m1", some 1⟩], none, [], none,
          none, none⟩).sessionCartId = some "c1" ∧
    (cartRouteAction (fun _ => false)
        ⟨⟨⟨"c1", 0, []⟩, [⟨"bad", none, none⟩]⟩, ⟨⟨"", 0, []⟩, []⟩,
          ⟨⟨"", 0, []⟩, []⟩, ⟨⟨"", 0, []⟩, []⟩, ⟨⟨"", 0, []⟩, []⟩,
          ⟨⟨"", 0, []⟩, []⟩⟩
        none
        ⟨some "ADD_TO_CART", some [⟨none, some "m1", some 1⟩], none, [], none,
          none, none⟩).setCookie = true ∧
    ([⟨"bad", none, none⟩] : List CartUserErrorM) ≠ [] := by decide

/-- Claim C6 (amended): in the CartLinesAdd action's no-cart flow, the new
cart id is written to the session and a Set-Cookie header is committed exactly
when the create mutation returns no application errors; in the generic cart
route action's no-cart add flow, the created cart id is written to the session
and a Set-Cookie header is committed unconditionally, regardless of
application errors accompanying the create result. -/
theorem c6_amended :
    (∀ (isLocalPath : String → Bool) (uuid : String) (env : StorefrontEnv)
      (linesField : Option (List CartLineInput)) (redirectTo : Option String),
      linesField.getD [] ≠ [] →
      (env.createErrors = [] →
        (CartLinesAdd.action isLocalPath uuid env none linesField
            redirectTo).sessionCartId = some env.createCart.id ∧
        (CartLinesAdd.action isLocalPath uuid env none linesField
            redirectTo).setCookie = true) ∧
      (env.createErrors ≠ [] →
        (CartLinesAdd.action isLocalPath uuid env none linesField
            redirectTo).sessionCartId = none ∧
        (CartLinesAdd.action isLocalPath uuid env none linesField
            redirectTo).setCookie = false)) ∧
    (∀ (isLocalPath : String → Bool) (env : CartActionEnv) (fd : CartFormData),
      fd.cartAction = some "ADD_TO_CART" → fd.lines.getD [] ≠ [] →
      (cartRouteAction isLocalPath env none fd).sessionCartId =
          some env.createResult.cart.id ∧
      (cartRouteAction isLocalPath env none fd).setCookie = true) := by
  constructor
  · intro ilp uuid env lf rt hl
    constructor
    · intro he
      simp [CartLinesAdd.action, List.isEmpty_iff, hl, he]
    · intro he
      simp [CartLinesAdd.action, List.isEmpty_iff, hl, he]
  · intro ilp env fd hact hl
    simp only [cartRouteAction, hact, List.isEmpty_iff, if_pos rfl]
    cases hrt : fd.redirectTo with
    | none => simp [hl]
    | some r =>
      by_cases hloc : ilp r = true <;> simp [hl, hloc]

/-- Claim C6 witness: a concrete successful create-flow invocation of the
CartLinesAdd action persists the new cart id and commits a cookie. -/
theorem c6_witness :
    (CartLinesAdd.action (fun _ => true) "u"
        ⟨⟨"c9", 0, []⟩, [], ⟨"c9", 0, []⟩, ⟨"c9", 0, []⟩, []⟩
        none (some [⟨"m", 1⟩]) none).sessionCartId = some "c9" ∧
    (CartLinesAdd.action (fun _ => true) "u"
        ⟨⟨"c9", 0, []⟩, [], ⟨"c9", 0, []⟩, ⟨"c9", 0, []⟩, []⟩
        none (some [⟨"m", 1⟩]) none).setCookie = true :=
  (c6_amended.1 (fun _ => true) "u"
    ⟨⟨"c9", 0, []⟩, [], ⟨"c9", 0, []⟩, ⟨"c9", 0, []⟩, []⟩
    (some [⟨"m", 1⟩]) none (by decide)).1 rfl

/-- Claim C10: when the submitted form data carries a `redirectTo` field
holding a local path and the mutation returned no application errors, the
CartLinesAdd action responds with a redirect to that path, keeping the
accumulated side effects (session write and Set-Cookie in the create flow),
and the reconciliation step is skipped entirely: the response carries no
`lines_add` event and no `LINE_NOT_ADDED` errors. -/
theorem c10_redirect_skips_reconciliation :
    ∀ (isLocalPath : String → Bool) (uuid : String) (env : StorefrontEnv)
      (cartId : Option String) (linesField : Option (List CartLineInput))
      (r : String),
      linesField.getD [] ≠ [] → isLocalPath r = true →
      (cartId = none → env.createErrors = [] →
        CartLinesAdd.action isLocalPath uuid env cartId linesField (some r) =
          ⟨.redirectTo r, some env.createCart.id, true, [.cartCreate]⟩) ∧
      (∀ cid : String, cartId = some cid → env.addErrors = [] →
        CartLinesAdd.action isLocalPath uuid env cartId linesField (some r) =
          ⟨.redirectTo r, none, false, [.getCartLines, .cartLinesAdd]⟩) := by
  intro ilp uuid env cartId lf r hl hloc
  constructor
  · intro hc he
    subst hc
    simp [CartLinesAdd.action, linesAddResponse, List.isEmpty_iff, hl, he, hloc]
  · intro cid hc he
    subst hc
    simp [CartLinesAdd.action, linesAddResponse, List.isEmpty_iff, hl, he, hloc]

/-- Claim C10 witness: a concrete create-flow invocation with a local
`redirectTo` path returns a redirect response. -/
theorem c10_witness :
    CartLinesAdd.action (fun _ => true) "u"
      ⟨⟨"c1", 0, []⟩, [], ⟨"c1", 0, []⟩, ⟨"c1", 0, []⟩, []⟩
      none (some [⟨"m", 1⟩]) (some "/products/p1") =
      ⟨.redirectTo "/products/p1", some "c1", true, [.cartCreate]⟩ :=
  (c10_redirect_skips_reconciliation (fun _ => true) "u"
    ⟨⟨"c1", 0, []⟩, [], ⟨"c1", 0, []⟩, ⟨"c1", 0, []⟩, []⟩
    none (some [⟨"m", 1⟩]) "/products/p1" (by decide) rfl).1 rfl rfl

/-- Claim C5: the cart route action aborts with a hard failure, before any
remote call, on an empty or missing lines input for an add or update action,
an empty `linesIds` for a remove action, a missing session cart id for a
remove, update, or discount action, or a missing or unrecognized `cartAction`
tag; likewise the CartLinesAdd action aborts before any remote call on an
empty or missing lines input.  (The remove and update missing-cart-id guards
live in the data module outside these sources and are modelled from the
spec.) -/
theorem c5_preconditions :
    (∀ (isLocalPath : String → Bool) (env : CartActionEnv)
      (cartId : Option String) (fd : CartFormData),
      (fd.cartAction = none →
        cartRouteAction isLocalPath env cartId fd =
          ⟨.abort "No cartAction defined", none, false, []⟩) ∧
      (fd.cartAction = some "ADD_TO_CART" → fd.lines.getD [] = [] →
        cartRouteAction isLocalPath env cartId fd =
          ⟨.abort "No lines to add", none, false, []⟩) ∧
      (fd.cartAction = some "REMOVE_FROM_CART" → fd.linesIds.getD [] = [] →
        cartRouteAction isLocalPath env cartId fd =
          ⟨.abort "No lines to remove", none, false, []⟩) ∧
      (fd.cartAction = some "UPDATE_CART" → fd.lines.getD [] = [] →
        cartRouteAction isLocalPath env cartId fd =
          ⟨.abort "No lines to update", none, false, []⟩) ∧
      (fd.cartAction = some "REMOVE_FROM_CART" → cartId = none →
        (cartRouteAction isLocalPath env cartId fd).calls = [] ∧
        ∃ m, (cartRouteAction isLocalPath env cartId fd).response =
          CartActionResponse.abort m) ∧
      (fd.cartAction = some "UPDATE_CART" → cartId = none →
        (cartRouteAction isLocalPath env cartId fd).calls = [] ∧
        ∃ m, (cartRouteAction isLocalPath env cartId fd).response =
          CartActionResponse.abort m) ∧
      (fd.cartAction = some "UPDATE_DISCOUNT" → cartId = none →
        cartRouteAction isLocalPath env cartId fd =
          ⟨.abort "Missing cartId", none, false, []⟩) ∧
      (∀ tag, fd.cartAction = some tag →
        tag ∉ ["ADD_TO_CART", "REMOVE_FROM_CART", "UPDATE_CART",
          "UPDATE_DISCOUNT", "UPDATE_BUYER_IDENTITY"] →
        cartRouteAction isLocalPath env cartId fd =
          ⟨.abort (tag ++ " cart action is not defined"), none, false, []⟩)) ∧
    (∀ (isLocalPath : String → Bool) (uuid : String) (env : StorefrontEnv)
      (cartId : Option String) (linesField : Option (List CartLineInput))
      (redirectTo : Option String),
      linesField.getD [] = [] →
      CartLinesAdd.action isLocalPath uuid env cartId linesField redirectTo =
        ⟨.abort "No lines to add", none, false, []⟩) := by
  constructor
  · intro ilp env cartId fd
    refine ⟨?_, ?_, ?_, ?_, ?_, ?_, ?_, ?_⟩
    · intro h; simp [cartRouteAction, h]
    · intro h hl; simp [cartRouteAction, h, List.isEmpty_iff, hl]
    · intro h hl; simp [cartRouteAction, h, List.isEmpty_iff, hl]
    · intro h hl; simp [cartRouteAction, h, List.isEmpty_iff, hl]
    · intro h hc
      subst hc
      by_cases hl : fd.linesIds.getD [] = [] <;>
        simp [cartRouteAction, cartRemove, h, List.isEmpty_iff, hl]
    · intro h hc
      subst hc
      by_cases hl : fd.lines.getD [] = [] <;>
        simp [cartRouteAction, cartUpdate, h, List.isEmpty_iff, hl]
    · intro h hc
      subst hc
      simp [cartRouteAction, h]
    · intro tag h hne
      simp only [List.mem_cons, List.not_mem_nil, or_false, not_or] at hne
      obtain ⟨h1, h2, h3, h4, h5⟩ := hne
      simp [cartRouteAction, h, h1, h2, h3, h4, h5]
  · intro ilp uuid env cartId lf rt hl
    simp [CartLinesAdd.action, List.isEmpty_iff, hl]

/-- Claim C5 witness: a concrete update invocation with no cart id in the
session aborts without issuing a remote call. -/
theorem c5_witness :
    cartRouteAction (fun _ => false)
      ⟨⟨⟨"", 0, []⟩, []⟩, ⟨⟨"", 0, []⟩, []⟩, ⟨⟨"", 0, []⟩, []⟩,
        ⟨⟨"", 0, []⟩, []⟩, ⟨⟨"", 0, []⟩, []⟩, ⟨⟨"", 0, []⟩, []⟩⟩
      none
      ⟨some "UPDATE_DISCOUNT", none, none, [], none, none, none⟩ =
      ⟨.abort "Missing cartId", none, false, []⟩ :=
  ((c5_preconditions.1 (fun _ => false)
    ⟨⟨⟨"", 0, []⟩, []⟩, ⟨⟨"", 0, []⟩, []⟩, ⟨⟨"", 0, []⟩, []⟩,
      ⟨⟨"", 0, []⟩, []⟩, ⟨⟨"", 0, []⟩, []⟩, ⟨⟨"", 0, []⟩, []⟩⟩
    none
    ⟨some "UPDATE_DISCOUNT", none, none, [], none, none, none⟩).2.2.2.2.2.2.1)
    rfl rfl

end Hydrogen
